import Mathlib

/-!
Verification of the signal scoring and classification pipeline of the
Raptorflow lead engine (backend/routers/classify.py, backend/scoring_heuristics.py,
backend/cache_manager.py, backend/ollama_wrapper.py, backend/scheduled_tasks.py).

Scores are modelled as exact rationals (the Python code computes them with
int/float arithmetic whose operations here are all exact).  Timestamps are
modelled as integer day counts; `now` is passed explicitly wherever the code
calls `datetime.utcnow()`.
-/

namespace Raptorflow

/-! ## Regular-expression engine

The heuristic detectors in scoring_heuristics.py call `re.search` with
IGNORECASE on a fixed set of patterns.  Those patterns use only the
constructs: literal characters, `\b`, `\s`, `\w`, `.`, the repetitions
`*`, `+`, `?`, and the character class `[-\s]`.  We embed exactly this
fragment: patterns are kept as their source strings and parsed. -/

/-- An element of a character class such as the source's `[-\s]`. -/
inductive ClsItem where
  | ch (c : Char)
  | ws
deriving Repr, DecidableEq

/-- A regex atom of the fragment used by the source patterns. -/
inductive RAtom where
  | lit (c : Char)
  | dot
  | ws
  | wordc
  | wordb
  | cls (items : List ClsItem)
deriving Repr, DecidableEq

/-- Repetition marker following an atom. -/
inductive RRep where
  | once
  | star
  | plus
  | opt
deriving Repr, DecidableEq

abbrev RItem := RAtom × RRep

/-- Python `\w` (ASCII word character). -/
def isWordCh (c : Char) : Bool := c.isAlphanum || c == '_'

/-- Python `\s` (whitespace class). -/
def isWsCh (c : Char) : Bool :=
  c == ' ' || c == '\t' || c == '\n' || c == '\r' || c == '\x0b' || c == '\x0c'

/-- Parse the interior of a character class, up to the closing bracket. -/
def parseCls : List Char → Option (List ClsItem × List Char)
  | [] => none
  | ']' :: rest => some ([], rest)
  | '\\' :: 's' :: rest => do
      let (items, r) ← parseCls rest
      some (ClsItem.ws :: items, r)
  | '\\' :: _ :: _ => none
  | '\\' :: [] => none
  | c :: rest => do
      let (items, r) ← parseCls rest
      some (ClsItem.ch c :: items, r)

/-- Parse an optional repetition marker. -/
def parseRep : List Char → RRep × List Char
  | '*' :: r => (RRep.star, r)
  | '+' :: r => (RRep.plus, r)
  | '?' :: r => (RRep.opt, r)
  | l => (RRep.once, l)

/-- Parse a pattern into items; fuel bounds the loop (each step consumes
at least one input character, so an input-length fuel never runs out). -/
def parseItems : Nat → List Char → Option (List RItem)
  | 0, _ => none
  | _ + 1, [] => some []
  | fuel + 1, '\\' :: 'b' :: rest =>
      let (rep, r) := parseRep rest
      do let items ← parseItems fuel r; some ((RAtom.wordb, rep) :: items)
  | fuel + 1, '\\' :: 's' :: rest =>
      let (rep, r) := parseRep rest
      do let items ← parseItems fuel r; some ((RAtom.ws, rep) :: items)
  | fuel + 1, '\\' :: 'w' :: rest =>
      let (rep, r) := parseRep rest
      do let items ← parseItems fuel r; some ((RAtom.wordc, rep) :: items)
  | _ + 1, '\\' :: _ :: _ => none
  | _ + 1, '\\' :: [] => none
  | fuel + 1, '.' :: rest =>
      let (rep, r) := parseRep rest
      do let items ← parseItems fuel r; some ((RAtom.dot, rep) :: items)
  | fuel + 1, '[' :: rest => do
      let (cls, r) ← parseCls rest
      let (rep, r') := parseRep r
      let items ← parseItems fuel r'
      some ((RAtom.cls cls, rep) :: items)
  | fuel + 1, c :: rest =>
      let (rep, r) := parseRep rest
      do let items ← parseItems fuel r; some ((RAtom.lit c, rep) :: items)

def parsePattern (pat : String) : Option (List RItem) :=
  parseItems (pat.length + 1) pat.toList

/-- Whether an atom matches one character (case-insensitively, as all the
source patterns are compiled with IGNORECASE). -/
def atomMatches : RAtom → Char → Bool
  | RAtom.lit a, c => a.toLower == c.toLower
  | RAtom.dot, c => c != '\n'
  | RAtom.ws, c => isWsCh c
  | RAtom.wordc, c => isWordCh c
  | RAtom.wordb, _ => false
  | RAtom.cls items, c =>
      items.any fun it =>
        match it with
        | ClsItem.ch a => a.toLower == c.toLower
        | ClsItem.ws => isWsCh c

/-- Python `\b`: positions where exactly one side is a word character. -/
def boundaryAt (prev : Option Char) (s : List Char) : Bool :=
  let pw := match prev with | some c => isWordCh c | none => false
  let nw := match s with | c :: _ => isWordCh c | [] => false
  pw != nw

/-- Does the item list match a prefix of `s`?  `prev` is the character
just before `s` in the full text (for word boundaries).  Structural
recursion on a fuel: every step lowers `items.length + s.length` (a
starred item stays in the list only after consuming a character), so
`items.length + s.length + 1` fuel is exact; the fuel keeps the function
kernel-reducible. -/
def matchHere : Nat → List RItem → Option Char → List Char → Bool
  | 0, _, _, _ => false
  | fuel + 1, items, prev, s =>
    match items, s with
    | [], _ => true
    | (RAtom.wordb, _) :: rest, _ =>
        boundaryAt prev s && matchHere fuel rest prev s
    | (a, RRep.once) :: rest, c :: s' =>
        atomMatches a c && matchHere fuel rest (some c) s'
    | (_, RRep.once) :: _, [] => false
    | (a, RRep.opt) :: rest, _ =>
        matchHere fuel rest prev s ||
          (match s with
           | [] => false
           | c :: s' => atomMatches a c && matchHere fuel rest (some c) s')
    | (a, RRep.star) :: rest, _ =>
        matchHere fuel rest prev s ||
          (match s with
           | [] => false
           | c :: s' =>
               atomMatches a c && matchHere fuel ((a, RRep.star) :: rest) (some c) s')
    | (a, RRep.plus) :: rest, c :: s' =>
        atomMatches a c && matchHere fuel ((a, RRep.star) :: rest) (some c) s'
    | (_, RRep.plus) :: _, [] => false

/-- Search helper: try a match at every start position of the text. -/
def searchFrom (items : List RItem) (prev : Option Char) (s : List Char) : Bool :=
  matchHere (items.length + s.length + 1) items prev s ||
    match s with
    | [] => false
    | c :: s' => searchFrom items (some c) s'

/-- Python re.search as a Bool (an unparseable pattern never matches;
every source pattern is in the parsed fragment). -/
def reSearch (pat : String) (text : String) : Bool :=
  match parsePattern pat with
  | some items => searchFrom items none text.toList
  | none => false

/-- Python str.strip() on a char list: drop leading and trailing
whitespace. -/
def stripChars (cs : List Char) : List Char :=
  ((cs.dropWhile isWsCh).reverse.dropWhile isWsCh).reverse

/-- Python str.strip() on strings. -/
def pyStrip (s : String) : String := String.mk (stripChars s.data)

/-- Python str.lower() on strings. -/
def pyLower (s : String) : String := String.mk (s.data.map Char.toLower)

/-- Python substring containment `needle in hay` on char lists. -/
def listContainsSub : List Char → List Char → Bool
  | hay, needle =>
    match hay with
    | [] => needle.isEmpty
    | _ :: t => needle.isPrefixOf hay || listContainsSub t needle

/-- Case-insensitive containment `needle.lower() in hay.lower()`. -/
def containsLower (hay needle : String) : Bool :=
  listContainsSub (hay.toList.map Char.toLower) (needle.toList.map Char.toLower)

/-! ## Heuristic Adjustment Engine (backend/scoring_heuristics.py) -/

/-- ScoringHeuristics dataclass ScoringAdjustment. -/
structure ScoringAdjustment where
  category : String
  adjustment : ℚ
  reason : String
  confidence : ℚ
deriving Repr, DecidableEq

/-- Source table FIRST_MARKETER_PATTERNS. -/
def FIRST_MARKETER_PATTERNS : List String :=
  [ "\\bfirst\\s+marketing\\s+hire\\b"
  , "\\bfirst\\s+marketer\\b"
  , "\\bown\\s+all\\s+of\\s+marketing\\b"
  , "\\bown\\s+marketing\\b"
  , "\\bfounding\\s+marketer\\b"
  , "\\bhead\\s+of\\s+growth\\b.*\\bfirst\\b"
  , "\\b0\\s*to\\s*1\\b.*\\bmarketing\\b"
  , "\\bbuild.*marketing\\s+from\\s+scratch\\b"
  , "\\bestablish.*marketing\\s+function\\b" ]

/-- Source table FOUNDER_TONE_PATTERNS. -/
def FOUNDER_TONE_PATTERNS : List String :=
  [ "\\bwe\x27re\\s+building\\b"
  , "\\bour\\s+mission\\b"
  , "\\bour\\s+vision\\b"
  , "\\bjoin\\s+us\\b"
  , "\\bwe\\s+believe\\b"
  , "\\bI\x27m\\s+looking\\b"
  , "\\bI\\s+need\\b"
  , "\\bmy\\s+team\\b"
  , "\\bhelp\\s+us\\s+\\w+\\b"
  , "\\bexcited\\s+to\\b"
  , "\\bpassionate\\s+about\\b" ]

/-- Source table HR_TONE_PATTERNS. -/
def HR_TONE_PATTERNS : List String :=
  [ "\\bthe\\s+successful\\s+candidate\\b"
  , "\\bthe\\s+ideal\\s+candidate\\b"
  , "\\bresponsibilities\\s+include\\b"
  , "\\bqualifications\\b"
  , "\\brequirements\\b"
  , "\\bcompetitive\\s+salary\\b"
  , "\\bbenefits\\s+package\\b"
  , "\\bequal\\s+opportunity\\s+employer\\b"
  , "\\bplease\\s+submit\\b"
  , "\\bto\\s+apply\\b" ]

/-- Source table SILVER_BULLET_PATTERNS. -/
def SILVER_BULLET_PATTERNS : List String :=
  [ "\\b10x\\s+growth\\b"
  , "\\b100x\\s+growth\\b"
  , "\\bhockey\\s+stick\\s+growth\\b"
  , "\\bovernight\\s+success\\b"
  , "\\binstant\\s+results\\b"
  , "\\bviral\\s+growth\\b"
  , "\\bguaranteed\\s+success\\b"
  , "\\btriple.*revenue.*month\\b"
  , "\\bexplosive\\s+growth\\b" ]

/-- Source table SPAM_PATTERNS. -/
def SPAM_PATTERNS : List String :=
  [ "\\bearn\\s+money\\s+fast\\b"
  , "\\bwork\\s+from\\s+home\\b"
  , "\\bno\\s+experience\\s+needed\\b"
  , "\\bMLM\\b"
  , "\\bmulti[-\\s]?level\\s+marketing\\b"
  , "\\bpyramid\\b"
  , "\\bget\\s+rich\\s+quick\\b"
  , "\\bclick\\s+here\\b"
  , "\\blimited\\s+time\\s+offer\\b" ]

/-- Source table INDUSTRY_PAIN_KEYWORDS, as a lookup from industry tag. -/
def INDUSTRY_PAIN_KEYWORDS (industry : String) : Option (List String) :=
  if industry = "d2c" then
    some [ "retention", "churn", "CAC", "LTV", "abandoned cart"
         , "repeat purchase", "customer loyalty", "DTC" ]
  else if industry = "saas" then
    some [ "pipeline", "MQL", "SQL", "conversion", "trial-to-paid"
         , "activation", "onboarding", "expansion", "PLG" ]
  else if industry = "b2b" then
    some [ "lead generation", "enterprise sales", "ABM", "demand gen"
         , "sales cycle", "deal velocity", "pipeline" ]
  else if industry = "ecommerce" then
    some [ "cart abandonment", "conversion rate", "AOV", "ROAS"
         , "product pages", "checkout", "SEO" ]
  else if industry = "marketplace" then
    some [ "supply-demand", "liquidity", "GMV", "take rate"
         , "network effects", "two-sided" ]
  else none

/-- Number of patterns of a table that re.search finds in the text. -/
def countMatches (pats : List String) (text : String) : Nat :=
  (pats.filter fun p => reSearch p text).length

/-- Stale-post penalty of detect_ghost_job: `min(age_days - 30, 20)` when
the post is over 30 days old.  `now` and the post date are day counts; the
source takes `(utcnow - post_date).days`. -/
def ghost_stale_penalties (now : Int) (post_date : Option Int) : List ℚ :=
  match post_date with
  | some d =>
      let age_days : Int := now - d
      if age_days > 30 then [((min (age_days - 30) 20 : Int) : ℚ)] else []
  | none => []

/-- Missing/placeholder company-name penalty of detect_ghost_job. -/
def ghost_company_penalties (company_name : Option String) : List ℚ :=
  match company_name with
  | none => [10]
  | some cn =>
      if cn = "" ∨ pyLower cn ∈ ["unknown", "n/a", "confidential"] then [10] else []

/-- Text-length penalty of detect_ghost_job (stripped length, as Python
`len(signal_text.strip())`). -/
def ghost_length_penalties (signal_text : String) : List ℚ :=
  let text_length := (stripChars signal_text.data).length
  if text_length < 100 then [5]
  else if text_length > 5000 then [3]
  else []

/-- Template-placeholder penalty of detect_ghost_job. -/
def ghost_template_penalties (signal_text : String) : List ℚ :=
  let boilerplate_phrases : List String :=
    [ "this is a template", "[insert company name]", "[company name]"
    , "TBD", "to be determined" ]
  if boilerplate_phrases.any (fun phrase => containsLower signal_text phrase)
  then [15] else []

/-- ScoringHeuristics.detect_ghost_job: the four penalty groups, summed. -/
def detect_ghost_job (now : Int) (signal_text : String) (post_date : Option Int)
    (company_name : Option String) (source_url : Option String := none) :
    ScoringAdjustment :=
  let _ := source_url
  let penalties := ghost_stale_penalties now post_date ++
    ghost_company_penalties company_name ++
    ghost_length_penalties signal_text ++
    ghost_template_penalties signal_text
  let total_penalty : ℚ := penalties.sum
  if total_penalty > 0 then
    { category := "ghost_job"
    , adjustment := -total_penalty
    , reason := "ghost job indicators detected"
    , confidence := min (total_penalty / 30) 1 }
  else
    { category := "ghost_job"
    , adjustment := 0
    , reason := "No ghost job indicators detected"
    , confidence := 0.5 }

/-- ScoringHeuristics.detect_first_marketer. -/
def detect_first_marketer (signal_text : String) : ScoringAdjustment :=
  let n := countMatches FIRST_MARKETER_PATTERNS signal_text
  if n > 0 then
    { category := "first_marketer"
    , adjustment := min ((n : ℚ) * 5) 15
    , reason := "First marketer role detected (" ++ toString n ++ " indicators)"
    , confidence := min ((n : ℚ) * 0.3) 1 }
  else
    { category := "first_marketer"
    , adjustment := 0
    , reason := "Not a first marketer role"
    , confidence := 0.3 }

/-- ScoringHeuristics.classify_tone.  Python int() truncates toward zero,
which on the nonnegative values here is the floor. -/
def classify_tone (signal_text : String) : ScoringAdjustment :=
  let founder_matches := countMatches FOUNDER_TONE_PATTERNS signal_text
  let hr_matches := countMatches HR_TONE_PATTERNS signal_text
  let total_matches := founder_matches + hr_matches
  if total_matches = 0 then
    { category := "tone_classification"
    , adjustment := 0
    , reason := "Unable to classify tone"
    , confidence := 0.1 }
  else
    let founder_ratio : ℚ := (founder_matches : ℚ) / (total_matches : ℚ)
    if founder_ratio > 0.6 then
      { category := "tone_classification"
      , adjustment := ((⌊founder_ratio * 10⌋ : ℤ) : ℚ)
      , reason := "Founder-written tone detected"
      , confidence := founder_ratio }
    else if founder_ratio < 0.4 then
      { category := "tone_classification"
      , adjustment := -(((⌊(1 - founder_ratio) * 5⌋ : ℤ) : ℚ))
      , reason := "HR/generic tone detected"
      , confidence := 1 - founder_ratio }
    else
      { category := "tone_classification"
      , adjustment := 0
      , reason := "Mixed tone (both founder and HR elements)"
      , confidence := 0.5 }

/-- ScoringHeuristics.detect_silver_bullet_seekers. -/
def detect_silver_bullet_seekers (signal_text : String) : ScoringAdjustment :=
  let n := countMatches SILVER_BULLET_PATTERNS signal_text
  if n > 0 then
    { category := "silver_bullet_seeker"
    , adjustment := -(min ((n : ℚ) * 8) 20)
    , reason := "Unrealistic expectations detected (" ++ toString n ++ " red flags)"
    , confidence := min ((n : ℚ) * 0.4) 1 }
  else
    { category := "silver_bullet_seeker"
    , adjustment := 0
    , reason := "No unrealistic expectations detected"
    , confidence := 0.5 }

/-- ScoringHeuristics.detect_spam. -/
def detect_spam (signal_text : String) : ScoringAdjustment :=
  let n := countMatches SPAM_PATTERNS signal_text
  if n > 0 then
    { category := "spam_detection"
    , adjustment := -(min ((n : ℚ) * 15) 40)
    , reason := "Spammy language detected (" ++ toString n ++ " spam indicators)"
    , confidence := min ((n : ℚ) * 0.5) 1 }
  else
    { category := "spam_detection"
    , adjustment := 0
    , reason := "No spam detected"
    , confidence := 0.8 }

/-- ScoringHeuristics._detect_industry (keyword containment, in source order). -/
def detectIndustry (signal_text : String) : Option String :=
  if ["d2c", "direct to consumer", "dtc", "ecom brand"].any
      (fun kw => containsLower signal_text kw) then some "d2c"
  else if ["saas", "software as a service", "b2b software"].any
      (fun kw => containsLower signal_text kw) then some "saas"
  else if ["marketplace", "platform", "two-sided"].any
      (fun kw => containsLower signal_text kw) then some "marketplace"
  else if ["ecommerce", "e-commerce", "online store"].any
      (fun kw => containsLower signal_text kw) then some "ecommerce"
  else if ["b2b", "enterprise", "business to business"].any
      (fun kw => containsLower signal_text kw) then some "b2b"
  else none

/-- ScoringHeuristics.adjust_for_industry.  An absent or empty or unknown
industry tag falls back to auto-detection from the text. -/
def adjust_for_industry (signal_text : String) (industry : Option String) :
    ScoringAdjustment :=
  let effIndustry : Option String :=
    match industry with
    | some i => if (INDUSTRY_PAIN_KEYWORDS i).isSome then some i
                else detectIndustry signal_text
    | none => detectIndustry signal_text
  let matched : Option Nat :=
    match effIndustry with
    | some i =>
        match INDUSTRY_PAIN_KEYWORDS i with
        | some kws =>
            some (kws.filter fun kw => containsLower signal_text kw).length
        | none => none
    | none => none
  match matched with
  | some m =>
      if m > 0 then
        { category := "industry_specific"
        , adjustment := min ((m : ℚ) * 3) 12
        , reason := "industry pain detected (" ++ toString m ++ " keywords)"
        , confidence := min ((m : ℚ) * 0.2) 0.9 }
      else
        { category := "industry_specific"
        , adjustment := 0
        , reason := "No industry-specific pain detected"
        , confidence := 0.3 }
  | none =>
      { category := "industry_specific"
      , adjustment := 0
      , reason := "No industry-specific pain detected"
      , confidence := 0.3 }

/-- ScoringHeuristics.apply_all_heuristics: the six detectors in source
order, and the unweighted sum of their adjustments. -/
def apply_all_heuristics (now : Int) (signal_text : String)
    (post_date : Option Int) (company_name : Option String)
    (source_url : Option String) (industry : Option String) :
    ℚ × List ScoringAdjustment :=
  let adjustments : List ScoringAdjustment :=
    [ detect_ghost_job now signal_text post_date company_name source_url
    , detect_first_marketer signal_text
    , classify_tone signal_text
    , detect_silver_bullet_seekers signal_text
    , detect_spam signal_text
    , adjust_for_industry signal_text industry ]
  ((adjustments.map ScoringAdjustment.adjustment).sum, adjustments)

/-! ## Data model and configuration (backend/routers/classify.py, backend/config.py) -/

/-- The fields of the model classification dict that the scoring pipeline
reads numerically (`classification.get("score_fit", 0)` and friends); the
remaining dict entries are free text copied verbatim into the lead and do
not influence any score. -/
structure Classification where
  icp_match : Bool := false
  score_fit : ℚ := 0
  score_pain : ℚ := 0
  score_data_quality : ℚ := 0
deriving Repr, DecidableEq

/-- OllamaManager._default_classification restricted to the fields above. -/
def default_classification : Classification :=
  { icp_match := false, score_fit := 0, score_pain := 0, score_data_quality := 0 }

/-- Pydantic model SignalInput. -/
structure SignalInput where
  signal_text : String
  source_type : String := "manual"
  source_url : Option String := none
  company_name : Option String := none
  company_website : Option String := none
  post_date : Option Int := none
  industry : Option String := none
deriving Repr, DecidableEq

/-- FundingEvent row fields read by the classify router. -/
structure FundingEvent where
  company_id : Option Nat
  announced_date : Int
deriving Repr, DecidableEq

/-- The configuration values the classify router and the scheduled tasks
read from the deployment settings object. -/
structure Settings where
  enable_scoring_heuristics : Bool
  funding_boost_days : Int
  funding_boost_score : ℚ
  prefilter_score_threshold : ℚ
  auto_park_days : Int
  enable_auto_park : Bool
deriving Repr, DecidableEq

/-- Lead row fields owned by the scoring pipeline and the lifecycle
manager. -/
structure Lead where
  status : String := "new"
  total_score : ℚ
  score_bucket : String
  manual_score_override : Option ℚ := none
  override_reason : Option String := none
  auto_parked_at : Option Int := none
  created_at : Int
  updated_at : Int
  notes : String := ""
deriving Repr, DecidableEq

/-- ScoreOverride audit row. -/
structure ScoreOverrideRec where
  user : String
  original_score : ℚ
  override_score : ℚ
  reason : Option String
deriving Repr, DecidableEq

/-- Router helper compute_score_bucket. -/
def compute_score_bucket (total_score : ℚ) : String :=
  if total_score ≥ 80 then "red_hot"
  else if total_score ≥ 60 then "warm"
  else if total_score ≥ 40 then "nurture"
  else "parked"

/-- The clamp `max(0, min(100, total_score))` from classify_signal. -/
def clampScore (x : ℚ) : ℚ := max 0 (min 100 x)

/-! ## Single-signal pipeline (classify_signal, classify.py lines 86-288) -/

/-- Result of the score computation of the single-signal endpoint. -/
structure SingleResult where
  total_score : ℚ
  score_bucket : String
  heuristic_adjustments : List ScoringAdjustment
  icp_match : Bool
deriving Repr, DecidableEq

/-- The funding query of classify_signal: the first FundingEvent whose
company_id is not NULL and whose announced_date is within the lookback
window.  The filter never mentions the signal's company. -/
def fundingQueryFirst (st : Settings) (now : Int) (events : List FundingEvent) :
    Option FundingEvent :=
  events.find? fun e =>
    e.company_id.isSome && decide (e.announced_date ≥ now - st.funding_boost_days)

/-- classify_signal's score computation: base scores, heuristic
adjustments (when enabled), funding boost, clamp, bucket. -/
def classify_signal_pipeline (st : Settings) (now : Int)
    (fundingEvents : List FundingEvent) (classification : Classification)
    (signal : SignalInput) : SingleResult :=
  let base_score_fit := classification.score_fit
  let base_score_pain := classification.score_pain
  let base_score_quality := classification.score_data_quality
  let ha :=
    if st.enable_scoring_heuristics then
      apply_all_heuristics now signal.signal_text signal.post_date
        signal.company_name signal.source_url signal.industry
    else (0, [])
  let total_adjustment := ha.1
  let heuristic_adjustments := ha.2
  let base_total := base_score_fit + base_score_pain + base_score_quality
  let score₀ := base_total + total_adjustment
  let fb :=
    if signal.company_name.isSome then
      match fundingQueryFirst st now fundingEvents with
      | some _ =>
          (score₀ + st.funding_boost_score,
           heuristic_adjustments ++
             [{ category := "funding_event"
              , adjustment := st.funding_boost_score
              , reason := "Recent funding event within " ++
                  toString st.funding_boost_days ++ " days"
              , confidence := 0.9 }])
      | none => (score₀, heuristic_adjustments)
    else (score₀, heuristic_adjustments)
  let total_score := clampScore fb.1
  { total_score := total_score
  , score_bucket := compute_score_bucket total_score
  , heuristic_adjustments := fb.2
  , icp_match := classification.icp_match }

/-- The lead the single-signal endpoint persists for a signal. -/
def single_persisted_lead (st : Settings) (now : Int)
    (fundingEvents : List FundingEvent) (classification : Classification)
    (signal : SignalInput) : Lead :=
  let r := classify_signal_pipeline st now fundingEvents classification signal
  { status := "new"
  , total_score := r.total_score
  , score_bucket := r.score_bucket
  , created_at := now
  , updated_at := now }

/-! ## Manual score override (override_lead_score, classify.py lines 611-655) -/

/-- override_lead_score: records the audit row and overwrites the lead's
total_score and score_bucket with the raw override value. -/
def override_lead_score (lead : Lead) (override_score : ℚ)
    (reason : Option String) (user : String) (now : Int) :
    Lead × ScoreOverrideRec :=
  let db_override : ScoreOverrideRec :=
    { user := user
    , original_score := lead.total_score
    , override_score := override_score
    , reason := reason }
  ({ lead with
       manual_score_override := some override_score
     , override_reason := reason
     , total_score := override_score
     , score_bucket := compute_score_bucket override_score
     , updated_at := now },
   db_override)

/-! ## Batch pipeline (classify_signals_batch, classify.py lines 290-461) -/

/-- Per-item status of the batch endpoint. -/
inductive BatchStatus where
  | ok
  | filtered
  | error
deriving Repr, DecidableEq

/-- classify_single (the batch's per-item stage): on exception the item is
an error; otherwise the pre-heuristic base total is compared against the
prefilter threshold.  The item's total_score is the bare base-score sum. -/
def batch_classify_single (st : Settings)
    (outcome : Except String Classification) : BatchStatus × ℚ :=
  match outcome with
  | Except.error _ => (BatchStatus.error, 0)
  | Except.ok classification =>
      let total_score := classification.score_fit + classification.score_pain +
        classification.score_data_quality
      if total_score < st.prefilter_score_threshold then
        (BatchStatus.filtered, total_score)
      else (BatchStatus.ok, total_score)

/-- The total_score the batch endpoint persists on a lead created for an
ok item: exactly the unclamped base-score sum, with no heuristic
adjustments and no funding boost. -/
def batch_persisted_total_score (classification : Classification) : ℚ :=
  classification.score_fit + classification.score_pain +
    classification.score_data_quality

/-- Final status of a batch item after the lead-creation loop: an ok item
whose persistence raises is re-labelled error (classify.py lines 446-449);
`persist_ok` is the outcome of that per-item try block. -/
def batch_item_final_status (st : Settings)
    (outcome : Except String Classification) (persist_ok : Bool) : BatchStatus :=
  match (batch_classify_single st outcome).1 with
  | BatchStatus.ok => if persist_ok then BatchStatus.ok else BatchStatus.error
  | s => s

/-- The three counts the batch endpoint returns: created leads, filtered
items, error items. -/
def batch_counts (st : Settings)
    (items : List (Except String Classification × Bool)) : Nat × Nat × Nat :=
  let finals := items.map fun it => batch_item_final_status st it.1 it.2
  ( (finals.filter (· = BatchStatus.ok)).length
  , (finals.filter (· = BatchStatus.filtered)).length
  , (finals.filter (· = BatchStatus.error)).length )

/-! ## Auto-park sweep (auto_park_old_leads, classify.py lines 693-754;
scheduled_auto_park_leads, scheduled_tasks.py lines 173-223) -/

/-- The sweep's candidate predicate: status "new", created before the
cutoff, never auto-parked. -/
def isAutoParkCandidate (cutoff : Int) (l : Lead) : Bool :=
  l.status == "new" && decide (l.created_at < cutoff) && l.auto_parked_at.isNone

/-- The candidate query of the sweep. -/
def auto_park_candidates (leads : List Lead) (cutoff : Int) : List Lead :=
  leads.filter (isAutoParkCandidate cutoff)

/-- Parking one lead: status "parked", auto_parked_at stamped, note
appended. -/
def park_lead (now : Int) (auto_park_days : Int) (l : Lead) : Lead :=
  { l with
      status := "parked"
    , auto_parked_at := some now
    , notes := l.notes ++ "\n[Auto-parked on day " ++ toString now ++
        " - no contact for " ++ toString auto_park_days ++ " days]" }

/-- One non-dry run of the sweep: parks every candidate, returns the new
lead set and parked_count. -/
def auto_park_sweep (leads : List Lead) (cutoff now : Int)
    (auto_park_days : Int) : List Lead × Nat :=
  ( leads.map fun l =>
      if isAutoParkCandidate cutoff l then park_lead now auto_park_days l else l
  , (auto_park_candidates leads cutoff).length )

/-! ## Result cache (backend/cache_manager.py) -/

/-- One in-memory cache entry (value plus expiry timestamp). -/
structure MemEntry (V : Type) where
  value : V
  expires_at : Int
deriving Repr, DecidableEq

/-- CacheManager state: backend flag, bounds, hit/miss counters, the
in-memory dict (association list in insertion order, as a Python dict),
and an abstract view of the external Redis store. -/
structure CacheState (V : Type) where
  backendIsRedis : Bool := false
  max_size : Nat
  ttl_seconds : Int
  hits : Nat := 0
  misses : Nat := 0
  memory_cache : List (String × MemEntry V) := []
  redis_store : List (String × V) := []
deriving Repr, DecidableEq

/-- CacheManager._generate_cache_key.  The SHA-256 primitive is a library
function, passed as a parameter; determinism of the key needs only that it
is a function of the normalized key string. -/
def generate_cache_key (sha256hex : String → String) (signal_text : String)
    (icp_context : Option String) (model : String) : String :=
  let normalized_signal := pyLower (pyStrip signal_text)
  let normalized_icp := pyLower (pyStrip (icp_context.getD ""))
  let key_string := normalized_signal ++ "|" ++ normalized_icp ++ "|" ++ model
  "model_cache:" ++ sha256hex key_string

/-- Python dict assignment `d[k] = e`: replace the entry in place if the
key is present, else append at the end. -/
def dictSet {V : Type} : List (String × MemEntry V) → String → MemEntry V →
    List (String × MemEntry V)
  | [], k, e => [(k, e)]
  | (k', e') :: t, k, e =>
      if k' = k then (k, e) :: t else (k', e') :: dictSet t k e

/-- Effective TTL of a set call: Python `ttl = ttl or self.ttl_seconds`
(a zero or absent ttl falls back to the configured default). -/
def effectiveTtl {V : Type} (st : CacheState V) (ttl : Option Int) : Int :=
  match ttl with
  | some t => if t = 0 then st.ttl_seconds else t
  | none => st.ttl_seconds

/-- CacheManager.get on the memory backend: dict lookup, expiry check
(an expired entry is removed and counted as a miss), hit/miss counters. -/
def memory_get {V : Type} (st : CacheState V) (cache_key : String) (now : Int) :
    Option V × CacheState V :=
  match st.memory_cache.find? (fun kv => kv.1 = cache_key) with
  | some (_, entry) =>
      if now < entry.expires_at then
        (some entry.value, { st with hits := st.hits + 1 })
      else
        (none,
         { st with
             misses := st.misses + 1
           , memory_cache := st.memory_cache.eraseP (fun kv => kv.1 = cache_key) })
  | none => (none, { st with misses := st.misses + 1 })

/-- CacheManager.set on the memory backend: evict the oldest-inserted
entry when the bound is reached, then insert with expiry now + ttl. -/
def memory_set {V : Type} (st : CacheState V) (cache_key : String) (v : V)
    (now : Int) (ttl : Option Int) : CacheState V :=
  let t := effectiveTtl st ttl
  let entries₁ :=
    if st.memory_cache.length ≥ st.max_size then st.memory_cache.tail
    else st.memory_cache
  { st with memory_cache := dictSet entries₁ cache_key { value := v, expires_at := now + t } }

/-- CacheManager.get for the memory backend, keyed from the inputs. -/
def cache_get {V : Type} (sha256hex : String → String) (st : CacheState V)
    (signal_text : String) (icp_context : Option String) (model : String)
    (now : Int) : Option V × CacheState V :=
  memory_get st (generate_cache_key sha256hex signal_text icp_context model) now

/-- CacheManager.set for the memory backend, keyed from the inputs. -/
def cache_set {V : Type} (sha256hex : String → String) (st : CacheState V)
    (signal_text : String) (v : V) (icp_context : Option String)
    (model : String) (now : Int) (ttl : Option Int) : CacheState V :=
  memory_set st (generate_cache_key sha256hex signal_text icp_context model) v now ttl

/-- Python dict assignment on the abstract Redis store. -/
def storeSet {V : Type} : List (String × V) → String → V → List (String × V)
  | [], k, v => [(k, v)]
  | (k', v') :: t, k, v =>
      if k' = k then (k, v) :: t else (k', v') :: storeSet t k v

/-- CacheManager.get on the Redis backend.  The remote call's outcome is a
parameter; the surrounding try/except maps a raised error to a counted
miss and a None result (cache_manager.py lines 174-177). -/
def redis_get {V : Type} (st : CacheState V)
    (backendResult : Except String (Option V)) : Option V × CacheState V :=
  match backendResult with
  | Except.ok (some v) => (some v, { st with hits := st.hits + 1 })
  | Except.ok none => (none, { st with misses := st.misses + 1 })
  | Except.error _ => (none, { st with misses := st.misses + 1 })

/-- CacheManager.set on the Redis backend.  On a raised error the except
block swallows it and the state (and store) are left unchanged
(cache_manager.py lines 222-223). -/
def redis_set {V : Type} (st : CacheState V) (cache_key : String) (v : V)
    (backendResult : Except String Unit) : CacheState V :=
  match backendResult with
  | Except.ok _ => { st with redis_store := storeSet st.redis_store cache_key v }
  | Except.error _ => st

/-! ## Model classification client (backend/ollama_wrapper.py) -/

/-- Outcome of the single HTTP request classify_signal issues. -/
inductive ModelCallOutcome where
  | timeout
  | httpResponse (status : Nat) (body : String)
deriving Repr, DecidableEq

/-- httpx raise_for_status: only 2xx responses pass. -/
def is2xx (status : Nat) : Bool := 200 ≤ status && status < 300

/-- OllamaManager._parse_json_response's salvage step: the substring from
the first opening brace to the last closing brace, when that span is
nonempty. -/
def extract_json_slice (s : String) : Option String :=
  let cs := s.toList
  match cs.findIdx? (fun c => c = '\x7b') with
  | none => none
  | some start_idx =>
      match cs.reverse.findIdx? (fun c => c = '\x7d') with
      | none => none
      | some rIdx =>
          let end_idx := cs.length - rIdx
          if start_idx < end_idx then
            some (String.mk ((cs.drop start_idx).take (end_idx - start_idx)))
          else none

/-- OllamaManager._parse_json_response: direct parse, then the
brace-slice retry, then the default.  `p` is the library JSON parser
(json.loads plus reading the numeric fields). -/
def parse_json_response (p : String → Option Classification)
    (response_text : String) (defaultV : Classification) : Classification :=
  match p response_text with
  | some r => r
  | none =>
      match extract_json_slice response_text with
      | some sub => (p sub).getD defaultV
      | none => defaultV

/-- OllamaManager.classify_signal's request/parse/fallback core: `bx`
models `response.json().get("response", "")` (None when the body is not
JSON, which raises inside the try and yields the default). -/
def ollama_classify_signal (p : String → Option Classification)
    (bx : String → Option String) (outcome : ModelCallOutcome) : Classification :=
  match outcome with
  | ModelCallOutcome.timeout => default_classification
  | ModelCallOutcome.httpResponse status body =>
      if is2xx status then
        match bx body with
        | none => default_classification
        | some response_text =>
            parse_json_response p (pyStrip response_text) default_classification
      else default_classification

/-! ## Concrete example inputs used by the counterexamples and witnesses -/

/-- Example configuration with heuristics enabled (funding lookback 90
days, boost 10, prefilter threshold 20). -/
def exSettingsHeurOn : Settings :=
  { enable_scoring_heuristics := true, funding_boost_days := 90, funding_boost_score := 10,
    prefilter_score_threshold := 20, auto_park_days := 30, enable_auto_park := true }

/-- Example configuration with heuristics disabled. -/
def exSettingsHeurOff : Settings :=
  { exSettingsHeurOn with enable_scoring_heuristics := false }

/-- Example model classification with base total 30 + 20 + 5 = 55. -/
def exCls : Classification :=
  { icp_match := true, score_fit := 30, score_pain := 20, score_data_quality := 5 }

/-- Example signal with the two-character text "zz" and a company name. -/
def exSigAcme : SignalInput := { signal_text := "zz", company_name := some "Acme" }

/-- Example signal with no company name. -/
def exSigNoCompany : SignalInput := { signal_text := "zz" }

/-- Example lead scored 50. -/
def exLead : Lead :=
  { total_score := 50, score_bucket := "nurture", created_at := 0, updated_at := 0 }

/-- Funding event of an unrelated company (id 42) announced on day 0. -/
def exEventOther : FundingEvent := { company_id := some 42, announced_date := 0 }

/-! ## Helper lemmas -/

lemma detect_ghost_job_category (now : Int) (t : String) (pd : Option Int)
    (cn su : Option String) : (detect_ghost_job now t pd cn su).category = "ghost_job" := by
  simp only [detect_ghost_job]
  repeat' split
  all_goals rfl

lemma detect_first_marketer_category (t : String) :
    (detect_first_marketer t).category = "first_marketer" := by
  simp only [detect_first_marketer]
  split <;> rfl

lemma classify_tone_category (t : String) :
    (classify_tone t).category = "tone_classification" := by
  simp only [classify_tone]
  repeat' split
  all_goals rfl

lemma detect_silver_bullet_seekers_category (t : String) :
    (detect_silver_bullet_seekers t).category = "silver_bullet_seeker" := by
  simp only [detect_silver_bullet_seekers]
  split <;> rfl

lemma detect_spam_category (t : String) :
    (detect_spam t).category = "spam_detection" := by
  simp only [detect_spam]
  split <;> rfl

lemma adjust_for_industry_category (t : String) (ind : Option String) :
    (adjust_for_industry t ind).category = "industry_specific" := by
  simp only [adjust_for_industry]
  repeat' split
  all_goals rfl

lemma ghost_stale_bounds (now : Int) (pd : Option Int) :
    0 ≤ (ghost_stale_penalties now pd).sum ∧ (ghost_stale_penalties now pd).sum ≤ 20 := by
  rcases pd with _ | d
  · simp [ghost_stale_penalties]
  · simp only [ghost_stale_penalties]
    split_ifs with h
    · simp only [List.sum_cons, List.sum_nil, add_zero]
      constructor
      · exact_mod_cast le_min (by omega) (by norm_num)
      · exact_mod_cast min_le_right _ _
    · simp

lemma ghost_company_bounds (cn : Option String) :
    0 ≤ (ghost_company_penalties cn).sum ∧ (ghost_company_penalties cn).sum ≤ 10 := by
  rcases cn with _ | c
  · simp [ghost_company_penalties]
  · simp only [ghost_company_penalties]
    split_ifs <;> norm_num

lemma ghost_length_bounds (t : String) :
    0 ≤ (ghost_length_penalties t).sum ∧ (ghost_length_penalties t).sum ≤ 5 := by
  simp only [ghost_length_penalties]
  split_ifs <;> norm_num

lemma ghost_template_bounds (t : String) :
    0 ≤ (ghost_template_penalties t).sum ∧ (ghost_template_penalties t).sum ≤ 15 := by
  simp only [ghost_template_penalties]
  split_ifs <;> norm_num

lemma clampScore_bounds (x : ℚ) : 0 ≤ clampScore x ∧ clampScore x ≤ 100 := by
  unfold clampScore
  exact ⟨le_max_left 0 _, max_le (by norm_num) (min_le_left _ _)⟩

lemma clampScore_eq_self {x : ℚ} (h0 : 0 ≤ x) (h1 : x ≤ 100) : clampScore x = x := by
  unfold clampScore
  rw [min_eq_right h1, max_eq_right h0]

/-- Heuristic adjustment values of the detectors on the text "zz" with
company "Acme": only the short-text ghost-job penalty (-5) fires. -/
lemma heuristics_on_zz :
    (apply_all_heuristics 0 "zz" none (some "Acme") none none).1 = -5 := by
  have hg : (detect_ghost_job 0 "zz" none (some "Acme") none).adjustment = -5 := by
    have h1 : ghost_stale_penalties 0 none = [] := by decide
    have h2 : ghost_company_penalties (some "Acme") = [] := by decide
    have h3 : ghost_length_penalties "zz" = [(5 : ℚ)] := by decide
    have h4 : ghost_template_penalties "zz" = [] := by decide
    simp only [detect_ghost_job, h1, h2, h3, h4, List.nil_append, List.append_nil,
      List.sum_cons, List.sum_nil]
    norm_num
  have hf : (detect_first_marketer "zz").adjustment = 0 := by
    have : countMatches FIRST_MARKETER_PATTERNS "zz" = 0 := by decide
    simp [detect_first_marketer, this]
  have ht : (classify_tone "zz").adjustment = 0 := by
    have h1 : countMatches FOUNDER_TONE_PATTERNS "zz" = 0 := by decide
    have h2 : countMatches HR_TONE_PATTERNS "zz" = 0 := by decide
    simp [classify_tone, h1, h2]
  have hs : (detect_silver_bullet_seekers "zz").adjustment = 0 := by
    have : countMatches SILVER_BULLET_PATTERNS "zz" = 0 := by decide
    simp [detect_silver_bullet_seekers, this]
  have hp : (detect_spam "zz").adjustment = 0 := by
    have : countMatches SPAM_PATTERNS "zz" = 0 := by decide
    simp [detect_spam, this]
  have hi : (adjust_for_industry "zz" none).adjustment = 0 := by
    have : detectIndustry "zz" = none := by decide
    simp [adjust_for_industry, this]
  simp only [apply_all_heuristics, List.map_cons, List.map_nil, List.sum_cons, List.sum_nil,
    hg, hf, ht, hs, hp, hi]
  norm_num

/-! ## Claims -/

/-- C4 counterexample: a 60-day-old posting with no company name whose
text is the 14-character placeholder "[company name]" accumulates the
stale (20), missing-company (10), short-text (5) and template (15)
penalties, so the ghost-job adjustment is -50: its magnitude exceeds the
claimed bound of 20. -/
theorem C4_ghost_job_magnitude_counterexample :
    (detect_ghost_job 60 "[company name]" (some 0) none none).adjustment = -50 ∧
    ¬(|(detect_ghost_job 60 "[company name]" (some 0) none none).adjustment| ≤ 20) := by
  have h1 : (stripChars "[company name]".data).length = 14 := by decide
  have h2 : (["this is a template", "[insert company name]", "[company name]", "TBD",
      "to be determined"].any fun phrase => containsLower "[company name]" phrase) = true := by
    decide
  have h3 : ((min (60 - 0 - 30 : Int) 20 : Int) : ℚ) = 20 := by norm_num
  have heq : (detect_ghost_job 60 "[company name]" (some 0) none none).adjustment = -50 := by
    simp only [detect_ghost_job, ghost_stale_penalties, ghost_company_penalties,
      ghost_length_penalties, ghost_template_penalties, h1, h2]
    norm_num [h3]
  refine ⟨heq, ?_⟩
  rw [heq]
  norm_num

/-- C4 amended: the ghost-job adjustment is always nonpositive with
magnitude at most 50 (the sum of the four caps 20 + 10 + 5 + 15); only
the staleness component alone is capped at 20. -/
theorem C4_ghost_job_adjustment_bounds (now : Int) (t : String) (pd : Option Int)
    (cn su : Option String) :
    -50 ≤ (detect_ghost_job now t pd cn su).adjustment ∧
    (detect_ghost_job now t pd cn su).adjustment ≤ 0 ∧
    (ghost_stale_penalties now pd).sum ≤ 20 := by
  obtain ⟨h1, h2⟩ := ghost_stale_bounds now pd
  obtain ⟨h3, h4⟩ := ghost_company_bounds cn
  obtain ⟨h5, h6⟩ := ghost_length_bounds t
  obtain ⟨h7, h8⟩ := ghost_template_bounds t
  refine ⟨?_, ?_, h2⟩ <;>
    · simp only [detect_ghost_job, List.sum_append]
      split_ifs with h
      · simp only []
        linarith
      · norm_num

/-- C9: for every signal text and optional metadata, apply_all_heuristics
(a total function, hence never throwing) returns exactly six adjustment
records, one per detector category in the fixed order ghost-job,
first-marketer, tone, silver-bullet, spam, industry, and the returned
total adjustment equals the unweighted sum of the six records'
adjustment values. -/
theorem C9_apply_all_heuristics_shape (now : Int) (text : String)
    (pd : Option Int) (cn su ind : Option String) :
    (apply_all_heuristics now text pd cn su ind).2.length = 6 ∧
    (apply_all_heuristics now text pd cn su ind).2.map ScoringAdjustment.category =
      [ "ghost_job", "first_marketer", "tone_classification"
      , "silver_bullet_seeker", "spam_detection", "industry_specific" ] ∧
    (apply_all_heuristics now text pd cn su ind).1 =
      ((apply_all_heuristics now text pd cn su ind).2.map
        ScoringAdjustment.adjustment).sum := by
  refine ⟨rfl, ?_, rfl⟩
  simp only [apply_all_heuristics, List.map_cons, List.map_nil,
    detect_ghost_job_category, detect_first_marketer_category,
    classify_tone_category, detect_silver_bullet_seekers_category,
    detect_spam_category, adjust_for_industry_category]

/-- C1 counterexample: an override request with override_score 150 stores
total_score 150 on the lead, outside [0, 100] — override_lead_score never
clamps. -/
theorem C1_override_unclamped_counterexample :
    (override_lead_score exLead 150 none "admin" 0).1.total_score = 150 ∧
    ¬((override_lead_score exLead 150 none "admin" 0).1.total_score ≤ 100) := by
  refine ⟨rfl, ?_⟩
  simp only [override_lead_score]
  norm_num

/-- C1 amended: only the single-signal pipeline clamps the persisted
total_score to [0, 100]; the override endpoint persists the raw
override_score unchanged, and a batch item persists the unclamped
base-score sum. -/
theorem C1_total_score_clamping_amended :
    (∀ (st : Settings) (now : Int) (evs : List FundingEvent)
        (cls : Classification) (sig : SignalInput),
        0 ≤ (classify_signal_pipeline st now evs cls sig).total_score ∧
        (classify_signal_pipeline st now evs cls sig).total_score ≤ 100 ∧
        (single_persisted_lead st now evs cls sig).total_score =
          (classify_signal_pipeline st now evs cls sig).total_score) ∧
    (∀ (lead : Lead) (s : ℚ) (r : Option String) (u : String) (now : Int),
        (override_lead_score lead s r u now).1.total_score = s) ∧
    (∀ cls : Classification, batch_persisted_total_score cls =
        cls.score_fit + cls.score_pain + cls.score_data_quality) := by
  refine ⟨?_, ?_, ?_⟩
  · intro st now evs cls sig
    refine ⟨?_, ?_, rfl⟩ <;>
      · simp only [classify_signal_pipeline]
        first
          | exact (clampScore_bounds _).1
          | exact (clampScore_bounds _).2
  · intro lead s r u now
    rfl
  · intro cls
    rfl

/-- C2 counterexample: on the signal "zz" (company "Acme", no funding
events) with base scores 30/20/5, the single-signal pipeline persists
total_score 50 (base 55 plus ghost-job -5, clamped), while a batch item
for the identical signal and classification is ok (55 ≥ threshold 20) and
persists total_score 55 — the batch omits the heuristic adjustments. -/
theorem C2_batch_single_divergence_counterexample :
    (batch_classify_single exSettingsHeurOn (Except.ok exCls)).1 = BatchStatus.ok ∧
    batch_persisted_total_score exCls = 55 ∧
    (classify_signal_pipeline exSettingsHeurOn 0 [] exCls exSigAcme).total_score = 50 ∧
    (classify_signal_pipeline exSettingsHeurOn 0 [] exCls exSigAcme).total_score ≠
      batch_persisted_total_score exCls := by
  have hb : batch_persisted_total_score exCls = 55 := by
    norm_num [batch_persisted_total_score, exCls]
  have hs : (classify_signal_pipeline exSettingsHeurOn 0 [] exCls exSigAcme).total_score = 50 := by
    simp only [classify_signal_pipeline, exSettingsHeurOn, exSigAcme, exCls, heuristics_on_zz,
      fundingQueryFirst, List.find?_nil, Option.isSome_some, if_true]
    norm_num [clampScore, min_def, max_def]
  refine ⟨?_, hb, hs, ?_⟩
  · simp only [batch_classify_single, exSettingsHeurOn, exCls]
    norm_num
  · rw [hs, hb]
    norm_num

/-- C2 amended: a batch item persists exactly the unclamped base-score
sum, skipping the heuristic, funding and clamping stages; whenever those
omitted stages are no-ops — heuristics disabled, no funding boost
applicable, and the base sum already inside [0, 100] — the single-signal
pipeline persists that same base sum (sufficiency only: with heuristics
enabled the adjustments may also happen to cancel). -/
theorem C2_batch_single_agreement_amended (st : Settings) (now : Int)
    (evs : List FundingEvent) (cls : Classification) (sig : SignalInput)
    (hh : st.enable_scoring_heuristics = false)
    (hf : sig.company_name = none ∨ fundingQueryFirst st now evs = none)
    (h0 : 0 ≤ batch_persisted_total_score cls)
    (h1 : batch_persisted_total_score cls ≤ 100) :
    (classify_signal_pipeline st now evs cls sig).total_score =
      batch_persisted_total_score cls := by
  simp only [batch_persisted_total_score] at h0 h1 ⊢
  simp only [classify_signal_pipeline, hh, Bool.false_eq_true, if_false]
  rcases hf with hf | hf
  · simp only [hf, Option.isSome_none, Bool.false_eq_true, if_false, add_zero]
    exact clampScore_eq_self h0 h1
  · simp only [hf, ite_self, add_zero]
    exact clampScore_eq_self h0 h1

/-- Witness for C2 amended: heuristics off, no company, base 55. -/
theorem C2_batch_single_agreement_amended_witness :
    (classify_signal_pipeline exSettingsHeurOff 0 [] exCls exSigNoCompany).total_score =
      batch_persisted_total_score exCls :=
  C2_batch_single_agreement_amended exSettingsHeurOff 0 [] exCls exSigNoCompany
    rfl (Or.inl rfl)
    (by norm_num [batch_persisted_total_score, exCls])
    (by norm_num [batch_persisted_total_score, exCls])

/-- C3 (code bug): the funding-boost query filters only on a non-null
company_id and a recent announced_date, never on the signal's company:
with a single funding event belonging to company 42, the signal for
"Acme" — and equally one for "Zeta" — receives the +10 bonus (total 65 =
55 + 10) and the synthetic funding_event adjustment record. -/
theorem C3_funding_boost_company_mismatch :
    (classify_signal_pipeline exSettingsHeurOff 0 [exEventOther] exCls exSigAcme).total_score = 65 ∧
    ((classify_signal_pipeline exSettingsHeurOff 0 [exEventOther] exCls
        exSigAcme).heuristic_adjustments.map ScoringAdjustment.category) = ["funding_event"] ∧
    (classify_signal_pipeline exSettingsHeurOff 0 [exEventOther] exCls
      { exSigAcme with company_name := some "Zeta" }).total_score = 65 := by
  have hfq : fundingQueryFirst exSettingsHeurOff 0 [exEventOther] = some exEventOther := by
    decide
  have e1 : exSettingsHeurOff.enable_scoring_heuristics = false := rfl
  have e2 : exSettingsHeurOff.funding_boost_score = 10 := rfl
  have e3 : exSettingsHeurOff.funding_boost_days = 90 := rfl
  have e4 : exSigAcme.company_name = some "Acme" := rfl
  have e5 : ({ exSigAcme with company_name := some "Zeta" } : SignalInput).company_name =
      some "Zeta" := rfl
  have e6 : exCls.score_fit = 30 := rfl
  have e7 : exCls.score_pain = 20 := rfl
  have e8 : exCls.score_data_quality = 5 := rfl
  refine ⟨?_, ?_, ?_⟩ <;>
    simp only [classify_signal_pipeline, e1, e2, e3, e4, e5, e6, e7, e8, hfq,
      Option.isSome_some, if_true, Bool.false_eq_true, if_false,
      List.nil_append, List.map_cons, List.map_nil] <;>
    first
      | rfl
      | norm_num [clampScore, min_def, max_def]

/-- C5: every failure mode of the model call — timeout, non-2xx status,
unparseable response body (direct parse and brace-slice retry both fail),
or a body that is not JSON at all — yields the fixed default
classification, whose scores are all zero with icp_match false; the
function is total, so no error propagates. -/
theorem C5_classify_signal_fail_open (p : String → Option Classification)
    (bx : String → Option String) :
    (ollama_classify_signal p bx ModelCallOutcome.timeout = default_classification) ∧
    (∀ status body, is2xx status = false →
        ollama_classify_signal p bx (ModelCallOutcome.httpResponse status body) =
          default_classification) ∧
    (∀ status body, bx body = none →
        ollama_classify_signal p bx (ModelCallOutcome.httpResponse status body) =
          default_classification) ∧
    (∀ status body t, bx body = some t → p (pyStrip t) = none →
        (∀ sub, extract_json_slice (pyStrip t) = some sub → p sub = none) →
        ollama_classify_signal p bx (ModelCallOutcome.httpResponse status body) =
          default_classification) ∧
    default_classification.score_fit = 0 ∧ default_classification.score_pain = 0 ∧
    default_classification.score_data_quality = 0 ∧
    default_classification.icp_match = false := by
  refine ⟨rfl, ?_, ?_, ?_, rfl, rfl, rfl, rfl⟩
  · intro status body h
    simp [ollama_classify_signal, h]
  · intro status body h
    by_cases h2 : is2xx status <;> simp [ollama_classify_signal, h, h2]
  · intro status body t hb hp hsub
    by_cases h2 : is2xx status
    · simp only [ollama_classify_signal, h2, if_true, hb, parse_json_response, hp]
      cases hex : extract_json_slice (pyStrip t) with
      | none => rfl
      | some sub => simp [hsub sub hex]
    · simp [ollama_classify_signal, h2]

/-- Witness for C5: a 500 response, a timeout, and a 200 response whose
body text contains no parseable JSON all map to the default. -/
theorem C5_classify_signal_fail_open_witness :
    ollama_classify_signal (fun _ => none) (fun _ => some "no json here")
        (ModelCallOutcome.httpResponse 500 "err") = default_classification ∧
    ollama_classify_signal (fun _ => none) (fun _ => some "no json here")
        ModelCallOutcome.timeout = default_classification ∧
    ollama_classify_signal (fun _ => none) (fun _ => some "no json here")
        (ModelCallOutcome.httpResponse 200 "body") = default_classification := by
  refine ⟨?_, ?_, ?_⟩
  · exact (C5_classify_signal_fail_open (fun _ => none) (fun _ => some "no json here")).2.1
      500 "err" (by decide)
  · exact (C5_classify_signal_fail_open (fun _ => none) (fun _ => some "no json here")).1
  · exact (C5_classify_signal_fail_open (fun _ => none) (fun _ => some "no json here")).2.2.2.1
      200 "body" "no json here" rfl rfl (fun _ _ => rfl)

/-- A lead that went through the sweep once is never a candidate again
(for the same cutoff): parked candidates lose status "new", and
non-candidates are unchanged. -/
lemma sweep_no_candidates (cutoff now days : Int) (l : Lead) :
    isAutoParkCandidate cutoff
      (if isAutoParkCandidate cutoff l then park_lead now days l else l) = false := by
  by_cases h : isAutoParkCandidate cutoff l
  · rw [if_pos h]
    have hs : (park_lead now days l).status = "parked" := rfl
    have hne : (("parked" : String) == "new") = false := by decide
    simp [isAutoParkCandidate, hs, hne]
  · rw [if_neg h]
    simpa using h

/-- C6: the auto-park sweep is idempotent — after one run, the candidate
query (status "new", created before the cutoff, auto_parked_at NULL)
matches no lead, so an immediately repeated run parks zero leads and
leaves the lead set unchanged. -/
theorem C6_auto_park_idempotent (leads : List Lead) (cutoff now now₂ days : Int) :
    auto_park_candidates (auto_park_sweep leads cutoff now days).1 cutoff = [] ∧
    (auto_park_sweep (auto_park_sweep leads cutoff now days).1 cutoff now₂ days).2 = 0 ∧
    (auto_park_sweep (auto_park_sweep leads cutoff now days).1 cutoff now₂ days).1 =
      (auto_park_sweep leads cutoff now days).1 := by
  have hempty : auto_park_candidates (auto_park_sweep leads cutoff now days).1 cutoff = [] := by
    simp only [auto_park_candidates, auto_park_sweep]
    rw [List.filter_eq_nil_iff]
    intro a ha
    obtain ⟨l, _, rfl⟩ := List.mem_map.mp ha
    simp [sweep_no_candidates cutoff now days l]
  refine ⟨hempty, ?_, ?_⟩
  · simp only [auto_park_sweep] at hempty ⊢
    rw [hempty]
    rfl
  · simp only [auto_park_sweep, List.map_map]
    apply List.map_congr_left
    intro l _
    simp only [Function.comp]
    rw [if_neg]
    rw [sweep_no_candidates cutoff now days l]
    simp

/-- Every batch item ends in exactly one of the three statuses, so the
three filtered counts partition the list. -/
lemma batch_status_partition (l : List BatchStatus) :
    (l.filter (· = BatchStatus.ok)).length + (l.filter (· = BatchStatus.filtered)).length +
      (l.filter (· = BatchStatus.error)).length = l.length := by
  induction l with
  | nil => rfl
  | cons s t ih =>
      cases s <;> simp [List.filter_cons] <;> omega

/-- C7: the batch endpoint's accounting identity — created leads plus
filtered items plus error items equals the number of input signals, with
persistence failures of ok items re-labelled as errors. -/
theorem C7_batch_accounting (st : Settings)
    (items : List (Except String Classification × Bool)) :
    (batch_counts st items).1 + (batch_counts st items).2.1 +
      (batch_counts st items).2.2 = items.length := by
  simp only [batch_counts]
  rw [batch_status_partition]
  exact List.length_map _ _

/-- Python dict assignment followed by lookup of the same key finds the
just-stored entry. -/
lemma find?_dictSet {V : Type} (l : List (String × MemEntry V)) (k : String)
    (e : MemEntry V) :
    (dictSet l k e).find? (fun kv => kv.1 = k) = some (k, e) := by
  induction l with
  | nil => simp [dictSet]
  | cons hd t ih =>
      obtain ⟨k', e'⟩ := hd
      simp only [dictSet]
      split_ifs with hk
      · simp
      · rw [List.find?_cons_of_neg _ (by simpa using hk)]
        exact ih

/-- C8: the cache key is a deterministic function of (signal text, ICP
context, model id); and on the in-memory backend, a get performed with
the same inputs right after a successful set, before the entry's TTL has
expired, returns exactly the stored value. -/
theorem C8_cache_key_deterministic_roundtrip :
    (∀ (sha256hex : String → String) (s₁ s₂ : String) (i₁ i₂ : Option String)
        (m₁ m₂ : String), s₁ = s₂ → i₁ = i₂ → m₁ = m₂ →
        generate_cache_key sha256hex s₁ i₁ m₁ = generate_cache_key sha256hex s₂ i₂ m₂) ∧
    (∀ (V : Type) (sha256hex : String → String) (st : CacheState V) (sig : String)
        (icp : Option String) (model : String) (v : V) (now now' : Int) (ttl : Option Int),
        now' < now + effectiveTtl st ttl →
        (cache_get sha256hex (cache_set sha256hex st sig v icp model now ttl)
          sig icp model now').1 = some v) := by
  constructor
  · intro sha s₁ s₂ i₁ i₂ m₁ m₂ hs hi hm
    rw [hs, hi, hm]
  · intro V sha st sig icp model v now now' ttl h
    simp only [cache_get, cache_set, memory_get, memory_set, find?_dictSet]
    rw [if_pos h]

/-- Witness for C8: storing 7 under ("a", no context, "1b") at time 0
with the default TTL of 100 and reading it back at time 1. -/
theorem C8_cache_key_deterministic_roundtrip_witness :
    generate_cache_key id "a" none "1b" = generate_cache_key id "a" none "1b" ∧
    (cache_get id
        (cache_set id ({ max_size := 10, ttl_seconds := 100 } : CacheState Nat)
          "a" 7 none "1b" 0 none) "a" none "1b" 1).1 = some 7 :=
  ⟨C8_cache_key_deterministic_roundtrip.1 id "a" "a" none none "1b" "1b" rfl rfl rfl,
   C8_cache_key_deterministic_roundtrip.2 Nat id
     ({ max_size := 10, ttl_seconds := 100 } : CacheState Nat) "a" none "1b" 7 0 1 none
     (by norm_num [effectiveTtl])⟩

/-- C10: a backend failure inside CacheManager.get is swallowed — the
call returns None, counts a miss, and changes no stored data — and a
backend failure inside CacheManager.set leaves the manager state
entirely unchanged; both functions are total, so no exception reaches a
classification call. -/
theorem C10_cache_backend_errors_swallowed (V : Type) (st : CacheState V)
    (e : String) (key : String) (v : V) :
    (redis_get st (Except.error e)).1 = none ∧
    (redis_get st (Except.error e)).2.misses = st.misses + 1 ∧
    (redis_get st (Except.error e)).2.hits = st.hits ∧
    (redis_get st (Except.error e)).2.memory_cache = st.memory_cache ∧
    (redis_get st (Except.error e)).2.redis_store = st.redis_store ∧
    redis_set st key v (Except.error e) = st :=
  ⟨rfl, rfl, rfl, rfl, rfl, rfl⟩

end Raptorflow
